import Mathlib

/-!
Verification of the local-rag-system repository: a shallow embedding of the
four Python modules (`obsidian_loader.py`, `rag_setup.py`, `add_to_memory.py`,
`rag_main.py`) as executable Lean definitions, followed by theorems settling
the behavioural claims about loading, ingestion, retrieval configuration,
prompt assembly and the interactive query loop.

External collaborators (the HTTP responses of the Obsidian REST API, the
langchain text splitter, the embedding / generation backends) are modelled as
explicit parameters: an ingestion run is a pure function of the loader's
responses and of the splitter function, and the interactive loop step is a
pure function of the raw input line and of the chain's outcome.
-/

/-- A langchain `Document` as constructed in `obsidian_loader.load_from_path`:
`page_content` plus the metadata fields set there (`source`, `vault`, `type`).
`vault` is `Option` because `OBSIDIAN_VAULT_NAME` is read with no default. -/
structure Document where
  page_content : String
  source : String
  vault : Option String
  type : String
deriving Repr, DecidableEq

/-- The state of `ObsidianDocumentLoader.__init__`: the three vault connection
settings are read with `os.getenv(...)` and NO default argument, so each is
`none` when absent from the environment. -/
structure ObsidianDocumentLoader where
  api_url : Option String
  api_key : Option String
  vault_name : Option String
deriving Repr, DecidableEq

/-- `ObsidianDocumentLoader.__init__`, as a function of the environment
(modelled as a partial map from variable name to value). -/
def ObsidianDocumentLoader.init (env : String → Option String) :
    ObsidianDocumentLoader :=
  { api_url := env "OBSIDIAN_API_URL"
    api_key := env "OBSIDIAN_API_KEY"
    vault_name := env "OBSIDIAN_VAULT_NAME" }

/-- One entry of the JSON array returned by `GET {api_url}/vault`; the code
only reads `file["path"]`. -/
structure VaultFile where
  path : String
deriving Repr, DecidableEq

/-- Outcome of one per-file `GET {api_url}/vault/read?file=...` request:
either the request raises (caught by the inner `except` of the loop body) or
it returns a status code together with the body's `content` field. -/
inductive ReadOutcome where
  | raised : String → ReadOutcome
  | status : Nat → String → ReadOutcome
deriving Repr, DecidableEq

/-- Outcome of the initial `GET {api_url}/vault` listing request: either it
raises (caught by the outer `except`) or it returns a status code with the
parsed file listing. -/
inductive ListingOutcome where
  | raised : String → ListingOutcome
  | status : Nat → List VaultFile → ListingOutcome
deriving Repr, DecidableEq

/-- Bool test: the first char list is an initial segment of the second. -/
def charsLead : List Char → List Char → Bool
  | [], _ => true
  | _ :: _, [] => false
  | a :: as, b :: bs => a == b && charsLead as bs

/-- Bool test: the needle occurs as a contiguous run inside the haystack. -/
def charsContain (needle : List Char) : List Char → Bool
  | [] => charsLead needle []
  | c :: cs => charsLead needle (c :: cs) || charsContain needle cs

/-- Substring test on strings, used to check for markers in prompts. -/
def strContains (haystack needle : String) : Bool :=
  charsContain needle.toList haystack.toList

/-- Python `str.startswith(p)`. -/
def pyStartsWith (s p : String) : Bool :=
  charsLead p.toList s.toList

/-- Python `str.endswith(p)`. -/
def pyEndsWith (s p : String) : Bool :=
  charsLead p.toList.reverse s.toList.reverse

/-- Body of the `for file in files` loop of `load_from_path`: the accumulator
is the `documents` list paired with the list of printed log lines. A file is
considered only when its path starts with `folder_path` and ends with `.md`;
a raised per-file request is caught and logged; a non-200 per-file status is
silently skipped; a 200 response appends a `Document` and a success log. -/
def loadFileStep (loader : ObsidianDocumentLoader)
    (read_file : String → ReadOutcome) (folder_path : String)
    (acc : List Document × List String) (file : VaultFile) :
    List Document × List String :=
  if pyStartsWith file.path folder_path && pyEndsWith file.path ".md" then
    match read_file file.path with
    | .raised e =>
        (acc.1, acc.2 ++ ["⚠️ Error loading " ++ file.path ++ ": " ++ e])
    | .status code content =>
        if code = 200 then
          (acc.1 ++ [{ page_content := content, source := file.path,
                       vault := loader.vault_name, type := "documentation" }],
           acc.2 ++ ["✅ Loaded: " ++ file.path])
        else acc
  else acc

/-- `ObsidianDocumentLoader.load_from_path`, as a function of the two layers
of HTTP outcomes. Returns the `documents` list paired with the printed log
lines. A raised listing request or a non-200 listing status yields `[]` with
an error log line (fail soft). -/
def load_from_path (loader : ObsidianDocumentLoader)
    (listing : ListingOutcome) (read_file : String → ReadOutcome)
    (folder_path : String) : List Document × List String :=
  match listing with
  | .raised e => ([], ["❌ Error: " ++ e])
  | .status code files =>
      if code = 200 then
        files.foldl (loadFileStep loader read_file folder_path) ([], [])
      else ([], ["❌ Error connecting to Obsidian: " ++ toString code])

/-- `ObsidianDocumentLoader.load_all_vault`: `load_from_path` with the empty
folder path. -/
def load_all_vault (loader : ObsidianDocumentLoader)
    (listing : ListingOutcome) (read_file : String → ReadOutcome) :
    List Document × List String :=
  load_from_path loader listing read_file ""

/-- The documents contributed by a single file of the listing (the first
component of `loadFileStep` relative to its accumulator). -/
def fileDocs (loader : ObsidianDocumentLoader)
    (read_file : String → ReadOutcome) (folder_path : String)
    (file : VaultFile) : List Document :=
  if pyStartsWith file.path folder_path && pyEndsWith file.path ".md" then
    match read_file file.path with
    | .raised _ => []
    | .status code content =>
        if code = 200 then
          [{ page_content := content, source := file.path,
             vault := loader.vault_name, type := "documentation" }]
        else []
  else []

/-- The log lines contributed by a single file of the listing. -/
def fileLog (read_file : String → ReadOutcome) (folder_path : String)
    (file : VaultFile) : List String :=
  if pyStartsWith file.path folder_path && pyEndsWith file.path ".md" then
    match read_file file.path with
    | .raised e => ["⚠️ Error loading " ++ file.path ++ ": " ++ e]
    | .status code _ =>
        if code = 200 then ["✅ Loaded: " ++ file.path] else []
  else []

/-- Documents contributed by a whole listing, file by file. -/
def docsOf (loader : ObsidianDocumentLoader)
    (read_file : String → ReadOutcome) (folder_path : String) :
    List VaultFile → List Document
  | [] => []
  | f :: fs =>
      fileDocs loader read_file folder_path f ++
        docsOf loader read_file folder_path fs

/-- Log lines contributed by a whole listing, file by file. -/
def logsOf (read_file : String → ReadOutcome) (folder_path : String) :
    List VaultFile → List String
  | [] => []
  | f :: fs =>
      fileLog read_file folder_path f ++ logsOf read_file folder_path fs

lemma loadFileStep_fst (loader : ObsidianDocumentLoader)
    (read_file : String → ReadOutcome) (folder_path : String)
    (acc : List Document × List String) (file : VaultFile) :
    (loadFileStep loader read_file folder_path acc file).1 =
      acc.1 ++ fileDocs loader read_file folder_path file := by
  unfold loadFileStep fileDocs
  by_cases hf : (pyStartsWith file.path folder_path && pyEndsWith file.path ".md") = true
  · simp only [hf, if_true]
    cases hr : read_file file.path with
    | raised e => simp
    | status code content =>
        by_cases hc : code = 200 <;> simp [hc]
  · simp [hf]

lemma loadFileStep_snd (loader : ObsidianDocumentLoader)
    (read_file : String → ReadOutcome) (folder_path : String)
    (acc : List Document × List String) (file : VaultFile) :
    (loadFileStep loader read_file folder_path acc file).2 =
      acc.2 ++ fileLog read_file folder_path file := by
  unfold loadFileStep fileLog
  by_cases hf : (pyStartsWith file.path folder_path && pyEndsWith file.path ".md") = true
  · simp only [hf, if_true]
    cases hr : read_file file.path with
    | raised e => simp
    | status code content =>
        by_cases hc : code = 200 <;> simp [hc]
  · simp [hf]

lemma foldl_loadFileStep_fst (loader : ObsidianDocumentLoader)
    (read_file : String → ReadOutcome) (folder_path : String)
    (files : List VaultFile) :
    ∀ acc : List Document × List String,
      (files.foldl (loadFileStep loader read_file folder_path) acc).1 =
        acc.1 ++ docsOf loader read_file folder_path files := by
  induction files with
  | nil => intro acc; simp [docsOf]
  | cons f fs ih =>
      intro acc
      rw [List.foldl_cons, ih, loadFileStep_fst, docsOf, List.append_assoc]

lemma foldl_loadFileStep_snd (loader : ObsidianDocumentLoader)
    (read_file : String → ReadOutcome) (folder_path : String)
    (files : List VaultFile) :
    ∀ acc : List Document × List String,
      (files.foldl (loadFileStep loader read_file folder_path) acc).2 =
        acc.2 ++ logsOf read_file folder_path files := by
  induction files with
  | nil => intro acc; simp [logsOf]
  | cons f fs ih =>
      intro acc
      rw [List.foldl_cons, ih, loadFileStep_snd, logsOf, List.append_assoc]

lemma docsOf_append (loader : ObsidianDocumentLoader)
    (read_file : String → ReadOutcome) (folder_path : String)
    (l₁ l₂ : List VaultFile) :
    docsOf loader read_file folder_path (l₁ ++ l₂) =
      docsOf loader read_file folder_path l₁ ++
        docsOf loader read_file folder_path l₂ := by
  induction l₁ with
  | nil => simp [docsOf]
  | cons f fs ih => simp [docsOf, ih]

lemma logsOf_append (read_file : String → ReadOutcome) (folder_path : String)
    (l₁ l₂ : List VaultFile) :
    logsOf read_file folder_path (l₁ ++ l₂) =
      logsOf read_file folder_path l₁ ++ logsOf read_file folder_path l₂ := by
  induction l₁ with
  | nil => simp [logsOf]
  | cons f fs ih => simp [logsOf, ih]

/-- A record in the Chroma collection, as far as replace semantics are
concerned: the chunk text plus its `source` metadata. Embedding vectors are
irrelevant to the stored-identity claims and are omitted. -/
structure VectorRecord where
  page_content : String
  source : String
deriving Repr, DecidableEq

/-- `vector_store.add_documents(chunks)` (langchain `Chroma`): appends one
record per chunk to the collection. No existing record is deleted, filtered,
or replaced. -/
def Chroma.add_documents (store : List VectorRecord)
    (chunks : List Document) : List VectorRecord :=
  store ++ chunks.map (fun c => { page_content := c.page_content, source := c.source })

/-- Result of one run of `add_new_documents_to_memory`: the final state of the
persisted collection, whether the `OllamaEmbeddings` provider was constructed
(the code constructs it only after the empty-documents early return), whether
the vector store was opened and written, and the printed report lines. -/
structure IngestResult where
  store : List VectorRecord
  embeddings_constructed : Bool
  store_touched : Bool
  log : List String
deriving Repr, DecidableEq

/-- `add_to_memory.add_new_documents_to_memory`, as a function of the loaded
documents (the loader's output for today's `Daily/` path), of the splitter
(langchain `RecursiveCharacterTextSplitter.split_documents`, an external
collaborator abstracted as a function on document lists) and of the persisted
collection state. If the loader returned no documents the function prints a
warning and returns before the splitter, the embeddings and the store are
constructed; otherwise it appends the chunk records via `add_documents`. -/
def add_new_documents_to_memory (split : List Document → List Document)
    (documents : List Document) (store : List VectorRecord) : IngestResult :=
  if documents.isEmpty then
    { store := store, embeddings_constructed := false, store_touched := false,
      log := ["⚠️ No new documents found for today"] }
  else
    let chunks := split documents
    { store := Chroma.add_documents store chunks
      embeddings_constructed := true
      store_touched := true
      log := ["✅ Added " ++ toString chunks.length ++ " new chunks to memory!",
              "💾 Memory updated successfully!"] }

/-- Result of one run of `rag_setup.setup_vector_database`: the returned value
(`None` on the empty-documents early return, otherwise the created store),
the final collection state, the same effect flags as ingestion, and report
lines. -/
structure SetupResult where
  returned : Option (List VectorRecord)
  store : List VectorRecord
  embeddings_constructed : Bool
  store_touched : Bool
  log : List String
deriving Repr, DecidableEq

/-- `rag_setup.setup_vector_database`, as a function of the loaded documents
(`load_all_vault` output), the splitter and the pre-existing persisted
collection state. Zero documents: prints `❌ No documents found!` and returns
`None` before the splitter, the embeddings and the Chroma store are
constructed. Otherwise `Chroma.from_documents` embeds the chunks and adds
them to the persisted collection. -/
def setup_vector_database (split : List Document → List Document)
    (documents : List Document) (store : List VectorRecord) : SetupResult :=
  if documents.isEmpty then
    { returned := none, store := store, embeddings_constructed := false,
      store_touched := false, log := ["❌ No documents found!"] }
  else
    let chunks := split documents
    let newStore := Chroma.add_documents store chunks
    { returned := some newStore, store := newStore,
      embeddings_constructed := true, store_touched := true,
      log := ["✅ Loaded " ++ toString documents.length ++ " documents",
              "✅ Created " ++ toString chunks.length ++ " chunks",
              "✅ Vector store created with " ++ toString chunks.length ++ " embeddings!"] }

/-- The retriever configuration passed to `vector_store.as_retriever` in
`rag_main.initialize_rag_system`: `search_type="similarity"` and
`search_kwargs={"k": 5}`. -/
structure RetrieverConfig where
  search_type : String
  k : Nat
deriving Repr, DecidableEq

/-- The literal retriever arguments of `initialize_rag_system`. -/
def initialize_rag_system_retriever : RetrieverConfig :=
  { search_type := "similarity", k := 5 }

/-- The literal text of the prompt template of `rag_main.create_rag_chain`
up to the `{context}` placeholder. -/
def rag_template_head : String :=
  "You are a technical assistant with access to project memory.\nBased on the following context from previous work sessions, answer the question.\n\nContext:\n"

/-- The literal template text between the two placeholders. -/
def rag_template_mid : String :=
  "\n\nQuestion: "

/-- The literal template text after the `{question}` placeholder. -/
def rag_template_tail : String :=
  "\n\nAnswer with specific details, commands, configurations, and recommendations when relevant:"

/-- The prompt template string of `rag_main.create_rag_chain`, verbatim: the
three literal segments around the `{context}` and `{question}` slots. -/
def rag_template : String :=
  rag_template_head ++ "{context}" ++ rag_template_mid ++ "{question}" ++
    rag_template_tail

/-- Python `str()` of the retrieved document list, as substituted for the
`{context}` placeholder by the prompt template: `[]` for the empty list,
otherwise the bracketed comma-separated reprs of the documents (the exact
per-document repr is a langchain library detail, abstracted as `render`). -/
def pyStrDocumentList (render : Document → String) (docs : List Document) :
    String :=
  "[" ++ String.intercalate ", " (docs.map render) ++ "]"

/-- The chain `{"context": retriever, "question": RunnablePassthrough()} |
prompt | llm` of `create_rag_chain`, up to the prompt: the template formatter
substitutes the stringified retrieved document list for `{context}` and the
question for `{question}` between the literal template segments. -/
def create_rag_chain_prompt (render : Document → String)
    (retrieved : List Document) (question : String) : String :=
  rag_template_head ++ pyStrDocumentList render retrieved ++
    rag_template_mid ++ question ++ rag_template_tail

/-- Python whitespace characters stripped by `str.strip()`. -/
def isPythonSpace (c : Char) : Bool :=
  c = ' ' || c = '\t' || c = '\n' || c = '\r' || c = '\x0b' || c = '\x0c'

/-- Python `str.strip()`: drops leading and trailing whitespace. -/
def pyStrip (s : String) : String :=
  String.mk (((s.toList.dropWhile isPythonSpace).reverse.dropWhile
    isPythonSpace).reverse)

/-- Python `str.lower()` (ASCII case folding suffices for this code). -/
def pyLower (s : String) : String :=
  String.mk (s.toList.map Char.toLower)

/-- Outcome of `chain.invoke(user_input)`: either the response (its `content`
attribute) or a raised exception's message. -/
inductive ChainOutcome where
  | ok : String → ChainOutcome
  | raised : String → ChainOutcome
deriving Repr, DecidableEq

/-- What the loop does after handling one input line. -/
inductive LoopAction where
  | stop
  | next
deriving Repr, DecidableEq

/-- Observable behaviour of one iteration of the `while True` loop of
`rag_main.main`: the resulting control action, whether `chain.invoke` was
called, and the lines printed during the iteration. -/
structure LoopStep where
  action : LoopAction
  chain_invoked : Bool
  printed : List String
deriving Repr, DecidableEq

/-- One iteration of the interactive loop of `rag_main.main`, as a function
of the raw `input()` line and of the chain's outcome on the handled text.
The raw line is stripped first; `quit` (compared after `.lower()`) exits;
an input that strips to empty is skipped with nothing printed and no chain
call; otherwise the chain is invoked and either the answer or the caught
exception's message is printed, and the loop continues. -/
def main_loop_step (chain : String → ChainOutcome) (rawInput : String) :
    LoopStep :=
  if pyLower (pyStrip rawInput) = "quit" then
    { action := .stop, chain_invoked := false, printed := ["Goodbye!"] }
  else if pyStrip rawInput = "" then
    { action := .next, chain_invoked := false, printed := [] }
  else
    match chain (pyStrip rawInput) with
    | .ok content =>
        { action := .next, chain_invoked := true,
          printed := ["🤔 Searching memory and thinking...",
                      "Assistant: " ++ content] }
    | .raised e =>
        { action := .next, chain_invoked := true,
          printed := ["🤔 Searching memory and thinking...",
                      "❌ Error: " ++ e] }

/-- Reading a configuration variable with `os.getenv(key, default)`. -/
def os_getenv_default (env : String → Option String) (key dflt : String) :
    String :=
  (env key).getD dflt

/-- The Ollama / Chroma configuration values read at startup. The same four
`os.getenv` calls, with the same defaults, appear in `rag_setup.py`,
`add_to_memory.py` and `rag_main.py`. -/
structure RagSetupConfig where
  embedding_model : String
  ollama_base_url : String
  chroma_path : String
  collection_name : String
deriving Repr, DecidableEq

/-- The startup configuration of `setup_vector_database` (and of the other
two entry points), as a function of the environment. -/
def rag_setup_env (env : String → Option String) : RagSetupConfig :=
  { embedding_model := os_getenv_default env "EMBEDDING_MODEL" "nomic-embed-text"
    ollama_base_url := os_getenv_default env "OLLAMA_BASE_URL" "http://localhost:11434"
    chroma_path := os_getenv_default env "CHROMA_PATH" "./chroma_data"
    collection_name := os_getenv_default env "COLLECTION_NAME" "project-memory" }

/-- The generation model identifier read by `rag_main.initialize_rag_system`:
`os.getenv("LLM_MODEL", "llama3.1:8b")`. -/
def rag_main_llm_model (env : String → Option String) : String :=
  os_getenv_default env "LLM_MODEL" "llama3.1:8b"

lemma load_from_path_ok (loader : ObsidianDocumentLoader)
    (read_file : String → ReadOutcome) (folder_path : String)
    (files : List VaultFile) :
    load_from_path loader (.status 200 files) read_file folder_path =
      (docsOf loader read_file folder_path files,
       logsOf read_file folder_path files) := by
  have h1 := foldl_loadFileStep_fst loader read_file folder_path files ([], [])
  have h2 := foldl_loadFileStep_snd loader read_file folder_path files ([], [])
  simp only [List.nil_append] at h1 h2
  show List.foldl (loadFileStep loader read_file folder_path) ([], []) files =
    (docsOf loader read_file folder_path files, logsOf read_file folder_path files)
  rw [Prod.ext_iff]
  exact ⟨h1, h2⟩

lemma mem_docsOf (loader : ObsidianDocumentLoader)
    (read_file : String → ReadOutcome) (folder_path : String) :
    ∀ (files : List VaultFile) (d : Document),
      d ∈ docsOf loader read_file folder_path files →
      pyStartsWith d.source folder_path = true ∧
      pyEndsWith d.source ".md" = true ∧
      read_file d.source = .status 200 d.page_content ∧
      d.vault = loader.vault_name := by
  intro files
  induction files with
  | nil => intro d hd; simp [docsOf] at hd
  | cons f fs ih =>
      intro d hd
      simp only [docsOf] at hd
      rcases List.mem_append.mp hd with h | h
      · unfold fileDocs at h
        by_cases hf : (pyStartsWith f.path folder_path && pyEndsWith f.path ".md") = true
        · rw [if_pos hf] at h
          cases hr : read_file f.path with
          | raised e => rw [hr] at h; simp at h
          | status code content =>
              rw [hr] at h
              by_cases hc : code = 200
              · subst hc
                simp at h
                subst h
                rw [Bool.and_eq_true] at hf
                exact ⟨hf.1, hf.2, hr, rfl⟩
              · simp [hc] at h
        · rw [if_neg hf] at h; simp at h
      · exact ih d h

/-- C1: the claim states that re-ingesting a source path removes all
previously stored records whose `source_id` matches before adding the new
ones. The code's `add_new_documents_to_memory` only calls
`vector_store.add_documents(chunks)`: at the concrete input below, a record
from the earlier version of `Daily/2025-06-01/note.md` is still in the
collection after the path is re-ingested with changed content (here the
splitter maps each document to a single chunk, which is what the
1000-character splitter does on these short texts). -/
theorem C1_counterexample :
    ({ page_content := "old content", source := "Daily/2025-06-01/note.md" } :
        VectorRecord) ∈
      (add_new_documents_to_memory (fun ds => ds)
        [{ page_content := "new content", source := "Daily/2025-06-01/note.md",
           vault := none, type := "documentation" }]
        [{ page_content := "old content",
           source := "Daily/2025-06-01/note.md" }]).store := by
  decide

/-- C1 (amended): re-ingestion does not delete anything. For every splitter,
document batch and prior collection state, every previously stored record —
including every record whose `source` matches a re-ingested path — is still
in the collection afterwards, and a non-empty batch appends its chunk records
to the end of the collection. -/
theorem C1_amended_append (split : List Document → List Document)
    (documents : List Document) (store : List VectorRecord) (r : VectorRecord)
    (hne : documents ≠ []) (hr : r ∈ store) :
    (add_new_documents_to_memory split documents store).store =
      store ++ (split documents).map
        (fun c => { page_content := c.page_content, source := c.source }) ∧
    r ∈ (add_new_documents_to_memory split documents store).store := by
  have hne' : documents.isEmpty = false := by
    cases documents with
    | nil => exact absurd rfl hne
    | cons d ds => rfl
  unfold add_new_documents_to_memory Chroma.add_documents
  rw [hne']
  exact ⟨rfl, by simp [hr]⟩

/-- Witness for `C1_amended_append` at the concrete re-ingestion input. -/
theorem C1_amended_append_witness :
    (add_new_documents_to_memory (fun ds => ds)
        [{ page_content := "new content", source := "Daily/2025-06-02/note.md",
           vault := none, type := "documentation" }]
        [{ page_content := "old content",
           source := "Daily/2025-06-02/note.md" }]).store =
      [{ page_content := "old content", source := "Daily/2025-06-02/note.md" },
       { page_content := "new content",
         source := "Daily/2025-06-02/note.md" }] ∧
    ({ page_content := "old content", source := "Daily/2025-06-02/note.md" } :
        VectorRecord) ∈
      (add_new_documents_to_memory (fun ds => ds)
        [{ page_content := "new content", source := "Daily/2025-06-02/note.md",
           vault := none, type := "documentation" }]
        [{ page_content := "old content",
           source := "Daily/2025-06-02/note.md" }]).store :=
  C1_amended_append (fun ds => ds) _ _ _ (by decide) (by decide)

/-- C2: when the loader returns zero documents, both ingestion entry points
(`setup_vector_database` for the full vault, `add_new_documents_to_memory`
for the daily update) return a reported no-op: the collection is untouched,
the embedding provider is never constructed or invoked, and the run ends with
a printed notice rather than an error. -/
theorem C2_empty_noop (split : List Document → List Document)
    (store : List VectorRecord) :
    add_new_documents_to_memory split [] store =
      { store := store, embeddings_constructed := false,
        store_touched := false,
        log := ["⚠️ No new documents found for today"] } ∧
    setup_vector_database split [] store =
      { returned := none, store := store, embeddings_constructed := false,
        store_touched := false, log := ["❌ No documents found!"] } :=
  ⟨rfl, rfl⟩

set_option maxRecDepth 200000 in
/-- C3: the claim states that an empty retrieval result produces an explicit
"no relevant context found" marker in the prompt's context block. At this
concrete query the assembled prompt contains no such marker anywhere: the
context slot receives the Python rendering of the empty document list. -/
theorem C3_counterexample :
    strContains
      (create_rag_chain_prompt (fun d => d.page_content) []
        "What did we configure?") "no relevant context found" = false ∧
    pyStrDocumentList (fun d => d.page_content) [] = "[]" :=
  ⟨by decide, by decide⟩

/-- C3 (amended): for every query whose retrieval returns an empty result
list, the context block of the assembled prompt is the Python rendering of
the empty document list — the two-character string `[]` — which is not an
empty string but also contains no "no relevant context found" marker. -/
theorem C3_amended_empty_context (render : Document → String)
    (question : String) :
    create_rag_chain_prompt render [] question =
      rag_template_head ++ "[]" ++ rag_template_mid ++ question ++
        rag_template_tail ∧
    pyStrDocumentList render [] = "[]" ∧
    pyStrDocumentList render [] ≠ "" ∧
    strContains (pyStrDocumentList render []) "no relevant context found"
      = false := by
  refine ⟨rfl, rfl, ?_, ?_⟩
  · show ("[]" : String) ≠ ""
    decide
  · show strContains "[]" "no relevant context found" = false
    decide

/-- C4: in an iteration of the interactive loop whose handled input is
neither `quit` nor empty, if `chain.invoke` raises then the caught
exception's message is printed with the `❌ Error:` marker and the loop
continues to the next prompt instead of stopping. -/
theorem C4_error_continues (chain : String → ChainOutcome)
    (rawInput e : String)
    (hq : pyLower (pyStrip rawInput) ≠ "quit")
    (hne : pyStrip rawInput ≠ "")
    (herr : chain (pyStrip rawInput) = .raised e) :
    (main_loop_step chain rawInput).action = LoopAction.next ∧
    ("❌ Error: " ++ e) ∈ (main_loop_step chain rawInput).printed := by
  unfold main_loop_step
  rw [if_neg hq, if_neg hne, herr]
  exact ⟨rfl, by simp⟩

/-- Witness for `C4_error_continues` at a concrete failing chain. -/
theorem C4_witness :
    (main_loop_step (fun _ => .raised "connection refused")
        " how do I deploy ").action = LoopAction.next ∧
    ("❌ Error: " ++ "connection refused") ∈
      (main_loop_step (fun _ => .raised "connection refused")
        " how do I deploy ").printed :=
  C4_error_continues (fun _ => .raised "connection refused")
    " how do I deploy " "connection refused" (by decide) (by decide) rfl

/-- C5: `initialize_rag_system` builds its retriever with
`search_type="similarity"` and `search_kwargs={"k": 5}`: the query path
requests exactly five nearest neighbours per question. -/
theorem C5_retriever_default_k :
    initialize_rag_system_retriever.k = 5 ∧
    initialize_rag_system_retriever.search_type = "similarity" :=
  ⟨rfl, rfl⟩

/-- C6: when the vault listing request raises (backend unreachable) or
returns a non-success status, `load_from_path` returns the empty document
list after logging the cause, instead of raising to its caller. -/
theorem C6_fail_soft (loader : ObsidianDocumentLoader)
    (read_file : String → ReadOutcome) (folder_path e : String)
    (code : Nat) (files : List VaultFile) (hcode : code ≠ 200) :
    load_from_path loader (.raised e) read_file folder_path =
      ([], ["❌ Error: " ++ e]) ∧
    load_from_path loader (.status code files) read_file folder_path =
      ([], ["❌ Error connecting to Obsidian: " ++ toString code]) :=
  ⟨rfl, by simp [load_from_path, hcode]⟩

/-- Witness for `C6_fail_soft`: unreachable backend and a 404 listing. -/
theorem C6_witness :
    load_from_path { api_url := none, api_key := none, vault_name := none }
        (.raised "ConnectionError") (fun _ => .raised "unused") "" =
      ([], ["❌ Error: " ++ "ConnectionError"]) ∧
    load_from_path { api_url := none, api_key := none, vault_name := none }
        (.status 404 [{ path := "a.md" }]) (fun _ => .raised "unused") "" =
      ([], ["❌ Error connecting to Obsidian: " ++ toString (404 : Nat)]) :=
  C6_fail_soft { api_url := none, api_key := none, vault_name := none }
    (fun _ => .raised "unused") "" "ConnectionError" 404 [{ path := "a.md" }]
    (by decide)

/-- C7: a single file whose read request raises is caught, logged with the
`⚠️ Error loading` line, and skipped: the documents produced from the rest of
the listing are exactly those produced had the bad file not been listed, so
one bad file never aborts the whole load. -/
theorem C7_bad_file_skipped (loader : ObsidianDocumentLoader)
    (read_file : String → ReadOutcome) (folder_path : String)
    (fs₁ fs₂ : List VaultFile) (bad : VaultFile) (e : String)
    (hmatch : (pyStartsWith bad.path folder_path &&
      pyEndsWith bad.path ".md") = true)
    (hraise : read_file bad.path = .raised e) :
    (load_from_path loader (.status 200 (fs₁ ++ bad :: fs₂)) read_file
        folder_path).1 =
      (load_from_path loader (.status 200 (fs₁ ++ fs₂)) read_file
        folder_path).1 ∧
    ("⚠️ Error loading " ++ bad.path ++ ": " ++ e) ∈
      (load_from_path loader (.status 200 (fs₁ ++ bad :: fs₂)) read_file
        folder_path).2 := by
  have hdocs : fileDocs loader read_file folder_path bad = [] := by
    unfold fileDocs; rw [if_pos hmatch, hraise]
  have hlog : fileLog read_file folder_path bad =
      ["⚠️ Error loading " ++ bad.path ++ ": " ++ e] := by
    unfold fileLog; rw [if_pos hmatch, hraise]
  rw [load_from_path_ok, load_from_path_ok]
  constructor
  · show docsOf loader read_file folder_path (fs₁ ++ bad :: fs₂) =
      docsOf loader read_file folder_path (fs₁ ++ fs₂)
    rw [docsOf_append, docsOf_append]
    simp only [docsOf, hdocs, List.nil_append]
  · show _ ∈ logsOf read_file folder_path (fs₁ ++ bad :: fs₂)
    rw [logsOf_append]
    simp [logsOf, hlog]

/-- Witness for `C7_bad_file_skipped`: a three-file listing whose middle file
raises on read. -/
theorem C7_witness :
    (load_from_path { api_url := none, api_key := none, vault_name := none }
        (.status 200 ([{ path := "Daily/a.md" }] ++
          { path := "Daily/bad.md" } :: [{ path := "Daily/b.md" }]))
        (fun p => if p = "Daily/bad.md" then .raised "boom"
          else .status 200 "content") "Daily/").1 =
      (load_from_path { api_url := none, api_key := none, vault_name := none }
        (.status 200 ([{ path := "Daily/a.md" }] ++ [{ path := "Daily/b.md" }]))
        (fun p => if p = "Daily/bad.md" then .raised "boom"
          else .status 200 "content") "Daily/").1 ∧
    ("⚠️ Error loading " ++ "Daily/bad.md" ++ ": " ++ "boom") ∈
      (load_from_path { api_url := none, api_key := none, vault_name := none }
        (.status 200 ([{ path := "Daily/a.md" }] ++
          { path := "Daily/bad.md" } :: [{ path := "Daily/b.md" }]))
        (fun p => if p = "Daily/bad.md" then .raised "boom"
          else .status 200 "content") "Daily/").2 :=
  C7_bad_file_skipped { api_url := none, api_key := none, vault_name := none }
    (fun p => if p = "Daily/bad.md" then .raised "boom"
      else .status 200 "content") "Daily/"
    [{ path := "Daily/a.md" }] [{ path := "Daily/b.md" }]
    { path := "Daily/bad.md" } "boom" (by decide) (by decide)

/-- C8: the claim states every startup configuration value, including the
vault connection settings, falls back to a documented default when absent.
`ObsidianDocumentLoader.__init__` reads the three vault connection variables
with no default: in an empty environment each of them is `none` — the loader
proceeds with missing values rather than falling back to any default. -/
theorem C8_counterexample :
    (ObsidianDocumentLoader.init (fun _ => none)).api_url = none ∧
    (ObsidianDocumentLoader.init (fun _ => none)).api_key = none ∧
    (ObsidianDocumentLoader.init (fun _ => none)).vault_name = none :=
  ⟨rfl, rfl, rfl⟩

/-- C8 (amended): the Ollama / Chroma settings (embedding model, generation
model, backend endpoint, vector-store location, collection name) fall back to
their documented defaults when absent from the environment, but the vault
connection settings (`OBSIDIAN_API_URL`, `OBSIDIAN_API_KEY`,
`OBSIDIAN_VAULT_NAME`) have no defaults and remain unset (`None`). -/
theorem C8_amended_defaults (env : String → Option String)
    (h : ∀ key, env key = none) :
    rag_setup_env env =
      { embedding_model := "nomic-embed-text",
        ollama_base_url := "http://localhost:11434",
        chroma_path := "./chroma_data",
        collection_name := "project-memory" } ∧
    rag_main_llm_model env = "llama3.1:8b" ∧
    ObsidianDocumentLoader.init env =
      { api_url := none, api_key := none, vault_name := none } := by
  refine ⟨?_, ?_, ?_⟩ <;>
    simp [rag_setup_env, rag_main_llm_model, ObsidianDocumentLoader.init,
      os_getenv_default, h]

/-- Witness for `C8_amended_defaults` at the empty environment. -/
theorem C8_witness :
    rag_setup_env (fun _ => none) =
      { embedding_model := "nomic-embed-text",
        ollama_base_url := "http://localhost:11434",
        chroma_path := "./chroma_data",
        collection_name := "project-memory" } ∧
    rag_main_llm_model (fun _ => none) = "llama3.1:8b" ∧
    ObsidianDocumentLoader.init (fun _ => none) =
      { api_url := none, api_key := none, vault_name := none } :=
  C8_amended_defaults (fun _ => none) (fun _ => rfl)

/-- C9: every document returned by `load_from_path` comes from a listed file
whose path both starts with the requested folder path and ends with `.md`;
its `page_content` is exactly the content fetched for that path (a 200 read
response) and its `source` metadata is the file's vault path (together with
the loader's vault name in the `vault` metadata field). -/
theorem C9_loader_output_wellformed (loader : ObsidianDocumentLoader)
    (listing : ListingOutcome) (read_file : String → ReadOutcome)
    (folder_path : String) (d : Document)
    (hd : d ∈ (load_from_path loader listing read_file folder_path).1) :
    pyStartsWith d.source folder_path = true ∧
    pyEndsWith d.source ".md" = true ∧
    read_file d.source = .status 200 d.page_content ∧
    d.vault = loader.vault_name := by
  cases listing with
  | raised e => simp [load_from_path] at hd
  | status code files =>
      by_cases hc : code = 200
      · subst hc
        rw [load_from_path_ok] at hd
        exact mem_docsOf loader read_file folder_path files d hd
      · simp [load_from_path, hc] at hd

/-- Witness for `C9_loader_output_wellformed` on a one-file vault. -/
theorem C9_witness :
    pyStartsWith (Document.mk "hello" "Daily/a.md" (some "v") "documentation").source "Daily/" = true ∧
    pyEndsWith (Document.mk "hello" "Daily/a.md" (some "v") "documentation").source ".md" = true ∧
    (fun p => if p = "Daily/a.md" then ReadOutcome.status 200 "hello" else ReadOutcome.raised "nope") (Document.mk "hello" "Daily/a.md" (some "v") "documentation").source = .status 200 (Document.mk "hello" "Daily/a.md" (some "v") "documentation").page_content ∧
    (Document.mk "hello" "Daily/a.md" (some "v") "documentation").vault = (ObsidianDocumentLoader.mk (some "u") (some "k") (some "v")).vault_name :=
  C9_loader_output_wellformed
    (ObsidianDocumentLoader.mk (some "u") (some "k") (some "v"))
    (.status 200 [VaultFile.mk "Daily/a.md"])
    (fun p => if p = "Daily/a.md" then ReadOutcome.status 200 "hello" else ReadOutcome.raised "nope")
    "Daily/"
    (Document.mk "hello" "Daily/a.md" (some "v") "documentation")
    (by decide)

/-- C10: the interactive loop strips the raw input before handling it: an
input that strips to empty is skipped — nothing printed, chain not invoked,
loop continues — and an input whose stripped, lowercased form is `quit`
exits the loop, so the exit command is matched case-insensitively and
ignores surrounding whitespace. -/
theorem C10_strip_skip_quit (chain : String → ChainOutcome)
    (rawInput : String) :
    (pyStrip rawInput = "" →
      main_loop_step chain rawInput =
        { action := .next, chain_invoked := false, printed := [] }) ∧
    (pyLower (pyStrip rawInput) = "quit" →
      main_loop_step chain rawInput =
        { action := .stop, chain_invoked := false,
          printed := ["Goodbye!"] }) := by
  constructor
  · intro h
    unfold main_loop_step
    rw [h]
    rw [if_neg (by decide), if_pos rfl]
  · intro h
    unfold main_loop_step
    rw [if_pos h]

/-- Witness for `C10_strip_skip_quit`: a whitespace-only input and a
mixed-case padded `quit`. -/
theorem C10_witness :
    main_loop_step (fun q => .ok q) "  \t " =
      { action := .next, chain_invoked := false, printed := [] } ∧
    main_loop_step (fun q => .ok q) " QuIt " =
      { action := .stop, chain_invoked := false, printed := ["Goodbye!"] } :=
  ⟨(C10_strip_skip_quit (fun q => .ok q) "  \t ").1 (by decide),
   (C10_strip_skip_quit (fun q => .ok q) " QuIt ").2 (by decide)⟩
